import Mathlib

/-!
Verification of the telemetry storage and retrieval engine of the
drone-logbook repository (src/src-tauri/src/database.rs).

The embedding models the DuckDB-backed store as explicit state: the three
relations `flights`, `telemetry` and `keychains` are lists of rows, and the
telemetry schema metadata (column order, presence of the composite primary
key and of the composite index) is carried alongside, because the
column-order repair of `ensure_telemetry_column_order` rebuilds the table
with `CREATE TABLE AS SELECT` which drops the primary-key constraint.

DOUBLE columns are modelled as `Option ℚ` (SQL NULL = `none`), INTEGER
columns as `Option ℤ`, VARCHAR as `Option String`.  SQL integer division
and the bucket arithmetic use `Int` division, which in Lean is Euclidean
division and agrees with floor division for the positive divisors that
occur here.  The haversine distance of `get_overview_stats` is modelled
over the reals.
-/

/-- Error type translated from `DatabaseError` in database.rs. -/
inductive DatabaseError where
  | duckDb (msg : String)
  | ioError (msg : String)
  | flightNotFound (id : Int)
deriving DecidableEq, Repr

/-- One row of the `telemetry` table minus the `flight_id` column: the
`TelemetryPoint` input type produced by the log parser, with exactly the
columns appended by `bulk_insert_telemetry` (database.rs lines 397-426). -/
structure TelemetryPoint where
  timestamp_ms : Int
  latitude : Option ℚ := none
  longitude : Option ℚ := none
  altitude : Option ℚ := none
  height : Option ℚ := none
  vps_height : Option ℚ := none
  altitude_abs : Option ℚ := none
  speed : Option ℚ := none
  velocity_x : Option ℚ := none
  velocity_y : Option ℚ := none
  velocity_z : Option ℚ := none
  pitch : Option ℚ := none
  roll : Option ℚ := none
  yaw : Option ℚ := none
  gimbal_pitch : Option ℚ := none
  gimbal_roll : Option ℚ := none
  gimbal_yaw : Option ℚ := none
  battery_percent : Option Int := none
  battery_voltage : Option ℚ := none
  battery_current : Option ℚ := none
  battery_temp : Option ℚ := none
  flight_mode : Option String := none
  gps_signal : Option Int := none
  satellites : Option Int := none
  rc_signal : Option Int := none
  rc_uplink : Option Int := none
  rc_downlink : Option Int := none
deriving DecidableEq, Repr

/-- One stored row of the `telemetry` table: the `flight_id` column plus the
remaining 27 columns, in the canonical column order of the schema. -/
structure TelemetryRow where
  flight_id : Int
  point : TelemetryPoint
deriving DecidableEq, Repr

/-- One row of the `flights` table (19 columns, database.rs lines 142-162).
Timestamps are carried as their serialized string form. -/
structure FlightRow where
  id : Int
  file_name : String
  display_name : Option String := none
  file_hash : Option String := none
  drone_model : Option String := none
  drone_serial : Option String := none
  aircraft_name : Option String := none
  battery_serial : Option String := none
  start_time : Option String := none
  end_time : Option String := none
  duration_secs : Option ℚ := none
  total_distance : Option ℚ := none
  max_altitude : Option ℚ := none
  max_speed : Option ℚ := none
  home_lat : Option ℚ := none
  home_lon : Option ℚ := none
  point_count : Option Int := none
  imported_at : Option String := none
  notes : Option String := none
deriving DecidableEq, Repr

/-- The `FlightMetadata` input of `insert_flight`: exactly the 17 columns
bound by the INSERT statement (database.rs lines 343-368). -/
structure FlightMetadata where
  id : Int
  file_name : String
  display_name : Option String := none
  file_hash : Option String := none
  drone_model : Option String := none
  drone_serial : Option String := none
  aircraft_name : Option String := none
  battery_serial : Option String := none
  start_time : Option String := none
  end_time : Option String := none
  duration_secs : Option ℚ := none
  total_distance : Option ℚ := none
  max_altitude : Option ℚ := none
  max_speed : Option ℚ := none
  home_lat : Option ℚ := none
  home_lon : Option ℚ := none
  point_count : Option Int := none
deriving DecidableEq, Repr

/-- One row of the `keychains` table. -/
structure KeychainRow where
  serial_number : String
  encryption_key : String
  fetched_at : Option String := none
deriving DecidableEq, Repr

/-- The canonical telemetry column order expected by
`ensure_telemetry_column_order` (database.rs lines 253-282). -/
def expectedTelemetryColumns : List String :=
  ["flight_id", "timestamp_ms", "latitude", "longitude", "altitude",
   "height", "vps_height", "altitude_abs", "speed", "velocity_x",
   "velocity_y", "velocity_z", "pitch", "roll", "yaw", "gimbal_pitch",
   "gimbal_roll", "gimbal_yaw", "battery_percent", "battery_voltage",
   "battery_current", "battery_temp", "flight_mode", "gps_signal",
   "satellites", "rc_signal", "rc_uplink", "rc_downlink"]

/-- The state of the store: the three relations plus the telemetry schema
metadata that the column-order repair can change. -/
structure DBState where
  flights : List FlightRow := []
  telemetry : List TelemetryRow := []
  keychains : List KeychainRow := []
  telemetryCols : List String := expectedTelemetryColumns
  telemetryHasPK : Bool := true
  telemetryHasIndex : Bool := true
deriving DecidableEq, Repr

/-- Column-order repair (database.rs lines 252-324).  When the physical
column order differs from the canonical one the table is rebuilt with
`CREATE TABLE AS SELECT` (which carries the data but no constraint, so the
composite PRIMARY KEY is lost), the old table is dropped, the rebuild is
renamed into place and the composite index is recreated. -/
def ensure_telemetry_column_order (s : DBState) : DBState :=
  if s.telemetryCols = expectedTelemetryColumns then s
  else { s with
          telemetryCols := expectedTelemetryColumns,
          telemetryHasPK := false,
          telemetryHasIndex := true }

/-- Row built by `insert_flight` from its `FlightMetadata` argument; the
`imported_at` column takes the DEFAULT CURRENT_TIMESTAMP, modelled as an
unspecified serialized timestamp argument, and `notes` stays NULL. -/
def rowOfMetadata (now : Option String) (m : FlightMetadata) : FlightRow :=
  { id := m.id, file_name := m.file_name, display_name := m.display_name,
    file_hash := m.file_hash, drone_model := m.drone_model,
    drone_serial := m.drone_serial, aircraft_name := m.aircraft_name,
    battery_serial := m.battery_serial, start_time := m.start_time,
    end_time := m.end_time, duration_secs := m.duration_secs,
    total_distance := m.total_distance, max_altitude := m.max_altitude,
    max_speed := m.max_speed, home_lat := m.home_lat,
    home_lon := m.home_lon, point_count := m.point_count,
    imported_at := now, notes := none }

/-- Constraint check performed by the store on an INSERT into `flights`:
`id` is the PRIMARY KEY and `file_hash` is UNIQUE (NULL hashes never
conflict, per SQL UNIQUE semantics). -/
def flightInsertConflict (rows : List FlightRow) (f : FlightRow) : Bool :=
  rows.any (fun r =>
    r.id = f.id ∨ (¬ f.file_hash = none ∧ r.file_hash = f.file_hash))

/-- Error message produced by the store for a duplicate key on `flights`. -/
def uniqueViolationMsg : String :=
  "Constraint Error: duplicate key violates primary key or unique constraint"

/-- Model of `insert_flight` (database.rs lines 338-373): a single INSERT
whose constraint violation is propagated to the caller unchanged. -/
def insert_flight (now : Option String) (s : DBState) (m : FlightMetadata) :
    Except DatabaseError (DBState × Int) :=
  let row := rowOfMetadata now m
  if flightInsertConflict s.flights row then
    .error (.duckDb uniqueViolationMsg)
  else
    .ok ({ s with flights := s.flights ++ [row] }, m.id)

/-- Model of `delete_flight` (database.rs lines 747-759): two DELETE
statements filtered by flight id; a missing id simply matches no row. -/
def delete_flight (s : DBState) (flight_id : Int) :
    Except DatabaseError DBState :=
  .ok { s with
        telemetry := s.telemetry.filter (fun r => ¬ r.flight_id = flight_id),
        flights := s.flights.filter (fun r => ¬ r.id = flight_id) }

/-- Model of `update_flight_name` (database.rs lines 993-1003): an UPDATE
filtered by flight id; a missing id updates no row and still succeeds. -/
def update_flight_name (s : DBState) (flight_id : Int)
    (display_name : String) : Except DatabaseError DBState :=
  .ok { s with
        flights := s.flights.map (fun r =>
          if r.id = flight_id then { r with display_name := some display_name }
          else r) }

/-- Accumulator of the `bulk_insert_telemetry` loop: the rows handed to the
appender so far (buffered, not yet in the table), the `inserted` and
`skipped` counters, and the in-memory `seen_timestamps` set (database.rs
lines 388-390). -/
structure BulkAcc where
  appended : List TelemetryRow
  inserted : Nat
  skipped : Nat
  seen : List Int
deriving DecidableEq, Repr

/-- One iteration of the loop of `bulk_insert_telemetry` (database.rs lines
392-440): an intra-batch duplicate detected through `seen_timestamps` is
skipped; otherwise the row is handed to the appender and counted.  The
DuckDB appender buffers the row without checking constraints, so
`append_row` itself never reports a primary-key violation and the
catch-and-skip branch at lines 428-436 is dead code on that path. -/
def bulkStep (flight_id : Int) (acc : BulkAcc) (p : TelemetryPoint) :
    BulkAcc :=
  if p.timestamp_ms ∈ acc.seen then
    { acc with skipped := acc.skipped + 1 }
  else
    { appended := acc.appended ++ [{ flight_id := flight_id, point := p }],
      inserted := acc.inserted + 1, skipped := acc.skipped,
      seen := p.timestamp_ms :: acc.seen }

/-- Constraint check performed when `appender.flush()` moves the buffered
rows into the table (database.rs line 442): with the composite PRIMARY KEY
present, the flush fails when some appended row's (flight_id, timestamp_ms)
key already exists in the stored table.  The intra-batch `seen` set keeps
the buffered rows themselves duplicate-free. -/
def flushConflict (hasPK : Bool) (stored appended : List TelemetryRow) :
    Bool :=
  hasPK && appended.any (fun r => stored.any (fun q =>
    q.flight_id = r.flight_id ∧ q.point.timestamp_ms = r.point.timestamp_ms))

/-- Error message of a primary-key violation reported by the appender
flush. -/
def appenderFlushErrMsg : String :=
  "Constraint Error: duplicate key violates primary key constraint"

/-- Model of `bulk_insert_telemetry` (database.rs lines 378-451): the batch
is folded through `bulkStep`, then `appender.flush()` commits the buffered
rows.  A primary-key violation is detected only at the flush, whose error
is propagated to the caller with the question-mark operator (line 442) and
whose rejected chunk is not committed, so a cross-batch duplicate makes the
whole call fail with the store unchanged (auto-flushes of very large
batches are not modelled). -/
def bulk_insert_telemetry (s : DBState) (flight_id : Int)
    (points : List TelemetryPoint) : Except DatabaseError (DBState × Nat) :=
  let acc := points.foldl (bulkStep flight_id) (⟨[], 0, 0, []⟩ : BulkAcc)
  if flushConflict s.telemetryHasPK s.telemetry acc.appended then
    .error (.duckDb appenderFlushErrMsg)
  else
    .ok ({ s with telemetry := s.telemetry ++ acc.appended }, acc.inserted)

/-- Timestamps of the stored telemetry rows of one flight, in table order. -/
def flightTimestamps (tel : List TelemetryRow) (flight_id : Int) : List Int :=
  (tel.filter (fun r => r.flight_id = flight_id)).map
    (fun r => r.point.timestamp_ms)

/-- The record shape returned by both telemetry query paths: exactly the 21
columns selected by `query_raw_telemetry` and `query_downsampled_telemetry`
(database.rs lines 602-624 and 684-705). -/
structure TelemetryRecord where
  timestamp_ms : Int
  latitude : Option ℚ := none
  longitude : Option ℚ := none
  altitude : Option ℚ := none
  height : Option ℚ := none
  vps_height : Option ℚ := none
  speed : Option ℚ := none
  velocity_x : Option ℚ := none
  velocity_y : Option ℚ := none
  velocity_z : Option ℚ := none
  battery_percent : Option Int := none
  battery_voltage : Option ℚ := none
  battery_temp : Option ℚ := none
  pitch : Option ℚ := none
  roll : Option ℚ := none
  yaw : Option ℚ := none
  satellites : Option Int := none
  flight_mode : Option String := none
  rc_signal : Option Int := none
  rc_uplink : Option Int := none
  rc_downlink : Option Int := none
deriving DecidableEq, Repr

/-- Projection of a stored telemetry row onto the 21 selected columns. -/
def toRecord (r : TelemetryRow) : TelemetryRecord :=
  { timestamp_ms := r.point.timestamp_ms, latitude := r.point.latitude,
    longitude := r.point.longitude, altitude := r.point.altitude,
    height := r.point.height, vps_height := r.point.vps_height,
    speed := r.point.speed, velocity_x := r.point.velocity_x,
    velocity_y := r.point.velocity_y, velocity_z := r.point.velocity_z,
    battery_percent := r.point.battery_percent,
    battery_voltage := r.point.battery_voltage,
    battery_temp := r.point.battery_temp, pitch := r.point.pitch,
    roll := r.point.roll, yaw := r.point.yaw,
    satellites := r.point.satellites, flight_mode := r.point.flight_mode,
    rc_signal := r.point.rc_signal, rc_uplink := r.point.rc_uplink,
    rc_downlink := r.point.rc_downlink }

/-- Row-level ORDER BY timestamp_ms ASC comparison. -/
def rowTsLe (a b : TelemetryRow) : Prop :=
  a.point.timestamp_ms ≤ b.point.timestamp_ms

instance : DecidableRel rowTsLe := fun a b =>
  inferInstanceAs (Decidable (a.point.timestamp_ms ≤ b.point.timestamp_ms))

instance : IsTotal TelemetryRow rowTsLe :=
  ⟨fun a b => le_total a.point.timestamp_ms b.point.timestamp_ms⟩

instance : IsTrans TelemetryRow rowTsLe :=
  ⟨fun _ _ _ hab hbc => le_trans hab hbc⟩

/-- The stored rows of one flight, `WHERE flight_id = ?`, in table order. -/
def flightRows (s : DBState) (flight_id : Int) : List TelemetryRow :=
  s.telemetry.filter (fun r => r.flight_id = flight_id)

/-- Model of `query_raw_telemetry` (database.rs lines 596-660): the rows of
the flight ordered ascending by timestamp, projected verbatim. -/
def query_raw_telemetry (s : DBState) (flight_id : Int) :
    List TelemetryRecord :=
  (List.insertionSort rowTsLe (flightRows s flight_id)).map toRecord

/-- SQL AVG over a nullable numeric column: NULL values are ignored and the
aggregate is NULL when every value is NULL. -/
def sqlAvg (l : List (Option ℚ)) : Option ℚ :=
  match l.filterMap id with
  | [] => none
  | v :: vs => some ((v :: vs).sum / ((v :: vs).length : ℚ))

/-- DuckDB cast of a DOUBLE to INTEGER (and ROUND): rounds to the nearest
integer, ties away from zero. -/
def castRound (q : ℚ) : Int :=
  if 0 ≤ q then ⌊q + 1/2⌋ else -⌊-q + 1/2⌋

/-- AVG over a nullable INTEGER column followed by a cast back to INTEGER,
as in `AVG(battery_percent)::INTEGER`. -/
def sqlAvgInt (l : List (Option Int)) : Option Int :=
  (sqlAvg (l.map (fun o => o.map (fun i => (i : ℚ))))).map castRound

/-- The bucket key `(timestamp_ms / bucket_size) * bucket_size AS
bucket_ts` of the SQL query (database.rs line 685).  DuckDB's `/` performs
float division even on integer operands (integer division is the separate
`//` operator), so `bucket_ts` is a DOUBLE; the float arithmetic is
idealized here as exact rational arithmetic, in which the key equals the
raw timestamp for every nonzero bucket size — the expression never floors,
so the GROUP BY never merges two distinct timestamps into one bucket (the
real double rounding error is far below the 1 ms timestamp granularity and
does not restore any merging either). -/
def bucketKey (bucket_size t : Int) : ℚ :=
  (t : ℚ) / (bucket_size : ℚ) * (bucket_size : ℚ)

/-- Modelled from the spec: the intended bucket key
`floor(timestamp / bucket_size) * bucket_size` of the downsampling policy,
which the SQL float division fails to implement. -/
def specBucketKey (bucket_size t : Int) : Int := t / bucket_size * bucket_size

/-- FIRST(flight_mode ORDER BY timestamp_ms) over a bucket. -/
def firstFlightMode (members : List TelemetryRow) : Option String :=
  match List.insertionSort rowTsLe members with
  | [] => none
  | m :: _ => m.point.flight_mode

/-- The aggregated record of one bucket of the downsampling query
(database.rs lines 683-710): every numeric channel is averaged, the
integer-typed channels are cast back (rounding to nearest), and the flight
mode is taken from the earliest sample of the bucket.  The record's
integer timestamp field receives the decode of the DOUBLE `bucket_ts`; in
the exact-rational idealization the key is an integral value (the raw
timestamp), so the floor written here is exact on every reachable key. -/
def bucketRecord (k : ℚ) (members : List TelemetryRow) : TelemetryRecord :=
  { timestamp_ms := ⌊k⌋,
    latitude := sqlAvg (members.map (fun r => r.point.latitude)),
    longitude := sqlAvg (members.map (fun r => r.point.longitude)),
    altitude := sqlAvg (members.map (fun r => r.point.altitude)),
    height := sqlAvg (members.map (fun r => r.point.height)),
    vps_height := sqlAvg (members.map (fun r => r.point.vps_height)),
    speed := sqlAvg (members.map (fun r => r.point.speed)),
    velocity_x := sqlAvg (members.map (fun r => r.point.velocity_x)),
    velocity_y := sqlAvg (members.map (fun r => r.point.velocity_y)),
    velocity_z := sqlAvg (members.map (fun r => r.point.velocity_z)),
    battery_percent :=
      sqlAvgInt (members.map (fun r => r.point.battery_percent)),
    battery_voltage :=
      sqlAvg (members.map (fun r => r.point.battery_voltage)),
    battery_temp := sqlAvg (members.map (fun r => r.point.battery_temp)),
    pitch := sqlAvg (members.map (fun r => r.point.pitch)),
    roll := sqlAvg (members.map (fun r => r.point.roll)),
    yaw := sqlAvg (members.map (fun r => r.point.yaw)),
    satellites := sqlAvgInt (members.map (fun r => r.point.satellites)),
    flight_mode := firstFlightMode members,
    rc_signal := sqlAvgInt (members.map (fun r => r.point.rc_signal)),
    rc_uplink := sqlAvgInt (members.map (fun r => r.point.rc_uplink)),
    rc_downlink := sqlAvgInt (members.map (fun r => r.point.rc_downlink)) }

/-- Bucket size computed by `query_downsampled_telemetry` (database.rs line
679): at least 1000 ms, otherwise the flight duration divided by the
target point count (Rust i64 division; the duration is nonnegative, so
truncation agrees with floor division). -/
def bucketSizeOf (min_ts max_ts : Int) (target_points : Nat) : Int :=
  max ((max_ts - min_ts) / (target_points : Int)) 1000

/-- SQL MIN over the timestamp column (0 stands for the NULL of an empty
scan, which the caller rejects before using it). -/
def minTsOf (l : List Int) : Int :=
  match l with
  | [] => 0
  | t :: ts => ts.foldl min t

/-- SQL MAX over the timestamp column. -/
def maxTsOf (l : List Int) : Int :=
  match l with
  | [] => 0
  | t :: ts => ts.foldl max t

/-- Bucket size of one flight for a given target point count. -/
def flightBucketSize (rows : List TelemetryRow) (target_points : Nat) : Int :=
  let ts := rows.map (fun r => r.point.timestamp_ms)
  bucketSizeOf (minTsOf ts) (maxTsOf ts) target_points

/-- Downsampling core over the rows of one flight: the distinct bucket keys
in ascending order (GROUP BY bucket_ts ... ORDER BY bucket_ts ASC), each
aggregated with `bucketRecord`.  Because `bucketKey` is the float-division
expression, the keys are just the raw timestamps and every stored sample
forms its own group. -/
def downsampleRows (rows : List TelemetryRow) (target_points : Nat) :
    List TelemetryRecord :=
  let B := flightBucketSize rows target_points
  let keys := List.insertionSort (fun a b => a ≤ b)
    ((rows.map (fun r => bucketKey B r.point.timestamp_ms)).dedup)
  keys.map (fun k =>
    bucketRecord k (rows.filter (fun r => bucketKey B r.point.timestamp_ms = k)))

/-- Model of `query_downsampled_telemetry` (database.rs lines 665-744): the
MIN/MAX scan of an empty flight yields NULL, whose integer decode fails, so
the empty case is a storage error; otherwise the bucketed aggregation runs. -/
def query_downsampled_telemetry (s : DBState) (flight_id : Int)
    (target_points : Nat) : Except DatabaseError (List TelemetryRecord) :=
  let rows := flightRows s flight_id
  if rows.isEmpty then
    .error (.duckDb "MIN/MAX over an empty flight decoded as NULL")
  else
    .ok (downsampleRows rows target_points)

/-- Model of `get_flight_telemetry` (database.rs lines 548-593): the point
count comes from `known_point_count` when positive, otherwise from a COUNT
scan whose zero result is reported as flight-not-found; small flights are
served raw, large ones downsampled. -/
def get_flight_telemetry (s : DBState) (flight_id : Int)
    (max_points : Option Nat) (known_point_count : Option Int) :
    Except DatabaseError (List TelemetryRecord) :=
  let M := max_points.getD 5000
  let scanCount : Except DatabaseError Int :=
    let c := ((flightRows s flight_id).length : Int)
    if c = 0 then .error (.flightNotFound flight_id) else .ok c
  let pointCount : Except DatabaseError Int :=
    match known_point_count with
    | some c => if 0 < c then .ok c else scanCount
    | none => scanCount
  match pointCount with
  | .error e => .error e
  | .ok n =>
      if n ≤ (M : Int) then .ok (query_raw_telemetry s flight_id)
      else query_downsampled_telemetry s flight_id M

/-- Contents of an extracted backup archive: each relation file may or may
not be present in the tar archive (`export_backup` always writes all
three). -/
structure ArchiveContent where
  flightsFile : Option (List FlightRow) := none
  telemetryFile : Option (List TelemetryRow) := none
  keychainsFile : Option (List KeychainRow) := none
deriving DecidableEq, Repr

/-- Model of `export_backup` (database.rs lines 1023-1080): each relation is
copied wholesale to its columnar intermediate file and all three files are
packed into the archive. -/
def export_backup (s : DBState) : ArchiveContent :=
  { flightsFile := some s.flights,
    telemetryFile := some s.telemetry,
    keychainsFile := some s.keychains }

/-- SQL membership test `file_hash IN (SELECT file_hash ... WHERE file_hash
IS NOT NULL)`: a NULL hash on the left compares as not-in. -/
def hashInNonNull (hashes : List String) (o : Option String) : Bool :=
  match o with
  | none => false
  | some h => h ∈ hashes

/-- Restore-time collision test on `flights` (database.rs lines 1117-1128):
an existing row is deleted when its id or its non-null content hash occurs
among the incoming rows. -/
def flightRestoreHit (incoming : List FlightRow) (r : FlightRow) : Bool :=
  r.id ∈ incoming.map FlightRow.id ∨
    hashInNonNull (incoming.filterMap FlightRow.file_hash) r.file_hash = true

/-- Delete-then-insert restore of the `flights` relation. -/
def restoreFlights (cur incoming : List FlightRow) : List FlightRow :=
  cur.filter (fun r => ¬ flightRestoreHit incoming r = true) ++ incoming

/-- Delete-then-insert restore of the `telemetry` relation (database.rs
lines 1140-1151): existing telemetry of every incoming flight id is removed
first. -/
def restoreTelemetry (cur incoming : List TelemetryRow) : List TelemetryRow :=
  cur.filter (fun r => ¬ r.flight_id ∈ incoming.map TelemetryRow.flight_id) ++
    incoming

/-- INSERT OR REPLACE of one keychain row, keyed by serial number. -/
def keychainUpsert (cur : List KeychainRow) (k : KeychainRow) :
    List KeychainRow :=
  cur.filter (fun r => ¬ r.serial_number = k.serial_number) ++ [k]

deriving instance DecidableEq for Except

/-- Outcome of `import_backup`: the resulting store state, the returned
value, and whether the scratch extraction directory was removed on the way
out. -/
structure ImportOutcome where
  state : DBState
  result : Except DatabaseError String
  scratchRemoved : Bool
deriving DecidableEq, Repr

/-- Message of the fatal invalid-backup error (database.rs line 1108). -/
def invalidBackupMsg : String := "Invalid backup file: missing flights.parquet"

/-- Message for a backup archive that fails to extract (database.rs line
1098). -/
def extractFailMsg : String := "Failed to extract backup archive"

/-- Summary message returned on success (elapsed time is not modelled). -/
def restoreMsg (n : Nat) : String := "Restored " ++ toString n ++ " flights"

/-- Model of `import_backup` (database.rs lines 1086-1177).  The argument is
the extraction result: `none` when unpacking the archive fails, in which
case the error propagates through `?` before any cleanup, so the scratch
directory is left behind.  A missing flights file is the fatal
invalid-backup error, raised after explicit cleanup and before any
mutation.  Otherwise the three relations are restored in order and the
scratch directory is removed at the end. -/
def import_backup (s : DBState) (archive : Option ArchiveContent) :
    ImportOutcome :=
  match archive with
  | none =>
      { state := s, result := .error (.ioError extractFailMsg),
        scratchRemoved := false }
  | some a =>
      match a.flightsFile with
      | none =>
          { state := s, result := .error (.ioError invalidBackupMsg),
            scratchRemoved := true }
      | some incoming =>
          let s1 := { s with flights := restoreFlights s.flights incoming }
          let s2 :=
            match a.telemetryFile with
            | none => s1
            | some inc => { s1 with telemetry := restoreTelemetry s1.telemetry inc }
          let s3 :=
            match a.keychainsFile with
            | none => s2
            | some inc => { s2 with keychains := inc.foldl keychainUpsert s2.keychains }
          { state := s3, result := .ok (restoreMsg incoming.length),
            scratchRemoved := true }

/-- The 1e-6 degeneracy tolerance of the overview-stats distance query. -/
def epsTol : ℚ := 1 / 1000000

/-- The WHERE filter of the top-distance query (database.rs lines 910-911),
`NOT (ABS(home_lat) < 1e-6 AND ABS(home_lon) < 1e-6) OR home_lat IS NULL`,
evaluated with SQL three-valued logic: a NULL home latitude keeps the row,
a NULL home longitude keeps the row only when the latitude is
non-degenerate, and otherwise the row is kept unless both coordinates are
within tolerance of zero. -/
def homeWherePred (f : FlightRow) : Bool :=
  match f.home_lat, f.home_lon with
  | none, _ => true
  | some la, none => ¬ |la| < epsTol
  | some la, some lo => ¬ (|la| < epsTol ∧ |lo| < epsTol)

/-- Degree-to-radian conversion used through SQL RADIANS. -/
noncomputable def radiansR (x : ℝ) : ℝ := x * Real.pi / 180

/-- The haversine great-circle distance of the SQL query (database.rs lines
900-904), with Earth radius 6,371,000 m. -/
noncomputable def haversineDist (hla hlo tla tlo : ℚ) : ℝ :=
  6371000 * 2 * Real.arcsin (Real.sqrt (
    (Real.sin (radiansR ((tla : ℝ) - (hla : ℝ)) / 2)) ^ 2 +
      Real.cos (radiansR (hla : ℝ)) * Real.cos (radiansR (tla : ℝ)) *
        (Real.sin (radiansR ((tlo : ℝ) - (hlo : ℝ)) / 2)) ^ 2))

/-- The CASE expression of the top-distance query (database.rs lines
895-905): 0 unless the home point and the telemetry coordinates are all
non-null and the telemetry point is non-degenerate. -/
noncomputable def caseDistVal (f : FlightRow) (t : TelemetryRow) : ℝ :=
  match f.home_lat, f.home_lon, t.point.latitude, t.point.longitude with
  | some hla, some hlo, some tla, some tlo =>
      if |tla| < epsTol ∧ |tlo| < epsTol then 0
      else haversineDist hla hlo tla tlo
  | _, _, _, _ => 0

/-- SQL MAX over a list of non-null numeric values: NULL on the empty
group. -/
noncomputable def sqlMaxD : List ℝ → Option ℝ
  | [] => none
  | v :: vs => some (match sqlMaxD vs with | none => v | some m => max v m)

/-- Per-flight value `COALESCE(MAX(CASE ...), 0)` of the top-distance query.
A flight with no telemetry produces a single NULL-extended row through the
LEFT JOIN whose CASE value is 0, which the empty-group COALESCE default
reproduces. -/
noncomputable def flightMaxDistance (s : DBState) (f : FlightRow) : ℝ :=
  (sqlMaxD ((flightRows s f.id).map (caseDistVal f))).getD 0

/-- One row of the top-distance result set. -/
structure TopDistanceFlight where
  id : Int
  display_name : String
  max_distance_from_home_m : ℝ
  start_time : Option String

/-- Entry built for one flight by the top-distance query. -/
noncomputable def topEntryOf (s : DBState) (f : FlightRow) : TopDistanceFlight :=
  { id := f.id, display_name := f.display_name.getD f.file_name,
    max_distance_from_home_m := flightMaxDistance s f,
    start_time := f.start_time }

/-- ORDER BY max_distance_from_home_m DESC comparison. -/
def topGE (a b : TopDistanceFlight) : Prop :=
  b.max_distance_from_home_m ≤ a.max_distance_from_home_m

noncomputable instance : DecidableRel topGE :=
  fun _ _ => Classical.propDecidable _

instance : IsTotal TopDistanceFlight topGE :=
  ⟨fun a b => le_total b.max_distance_from_home_m a.max_distance_from_home_m⟩

instance : IsTrans TopDistanceFlight topGE :=
  ⟨fun _ _ _ hab hbc => le_trans hbc hab⟩

/-- The per-flight top-distance list of `get_overview_stats` (database.rs
lines 890-926): one aggregated row per flight passing the home filter,
ordered descending by distance. -/
noncomputable def top_distance_flights (s : DBState) : List TopDistanceFlight :=
  List.insertionSort topGE ((s.flights.filter homeWherePred).map (topEntryOf s))

/-- The derived global maximum (database.rs lines 964-968): head of the
ordered per-flight list, 0 when the list is empty. -/
noncomputable def max_distance_from_home (s : DBState) : ℝ :=
  match top_distance_flights s with
  | [] => 0
  | e :: _ => e.max_distance_from_home_m

/-- The distance-related fields of the overview statistics; the remaining
aggregates of `get_overview_stats` are not touched by any claim. -/
structure OverviewStatsDistances where
  top_distance_flights : List TopDistanceFlight
  max_distance_from_home_m : ℝ

/-- Model of the distance computation of `get_overview_stats` (database.rs
lines 774-990, distance-related outputs). -/
noncomputable def get_overview_stats (s : DBState) : OverviewStatsDistances :=
  { top_distance_flights := top_distance_flights s,
    max_distance_from_home_m := max_distance_from_home s }

/-- Modelled from the spec: the candidate haversine distances of one
flight, keeping only telemetry points with non-null coordinates not both
within 1e-6 of zero. -/
noncomputable def specQualifyingDistances (s : DBState) (fid : Int)
    (hla hlo : ℚ) : List ℝ :=
  (flightRows s fid).filterMap (fun t =>
    match t.point.latitude, t.point.longitude with
    | some x, some y =>
        if |x| < epsTol ∧ |y| < epsTol then none
        else some (haversineDist hla hlo x y)
    | _, _ => none)

/-- Modelled from the spec: the greatest qualifying haversine distance of a
flight, 0 when no telemetry point qualifies. -/
noncomputable def specMaxDistance (s : DBState) (fid : Int) (hla hlo : ℚ) : ℝ :=
  (sqlMaxD (specQualifyingDistances s fid hla hlo)).getD 0

/-- Claim C10: for every flight id not present in the store, `delete_flight`
and `update_flight_name` both return success rather than a FlightNotFound
error and leave the flights and telemetry relations unchanged. -/
theorem c10_missing_id_silent_noop (s : DBState) (fid : Int) (name : String)
    (hf : ∀ r ∈ s.flights, ¬ r.id = fid)
    (ht : ∀ r ∈ s.telemetry, ¬ r.flight_id = fid) :
    delete_flight s fid = .ok s ∧ update_flight_name s fid name = .ok s := by
  have h1 : s.telemetry.filter (fun r => ¬ r.flight_id = fid) = s.telemetry :=
    List.filter_eq_self.mpr (fun a ha => by simpa using ht a ha)
  have h2 : s.flights.filter (fun r => ¬ r.id = fid) = s.flights :=
    List.filter_eq_self.mpr (fun a ha => by simpa using hf a ha)
  have h3 : s.flights.map (fun r =>
      if r.id = fid then { r with display_name := some name } else r) =
      s.flights := by
    have hcongr : s.flights.map (fun r =>
        if r.id = fid then { r with display_name := some name } else r) =
        s.flights.map (fun r => r) :=
      List.map_congr_left (fun a ha => if_neg (hf a ha))
    simpa using hcongr
  refine ⟨?_, ?_⟩
  · simp only [delete_flight, h1, h2]
  · simp only [update_flight_name, h3]

/-- Witness for C10 at a concrete store holding flight 1 and its telemetry,
probed with the absent flight id 2. -/
theorem c10_witness :
    delete_flight
        { flights := [{ id := 1, file_name := "a.txt" }],
          telemetry := [{ flight_id := 1, point := { timestamp_ms := 0 } }] }
        2 =
      .ok { flights := [{ id := 1, file_name := "a.txt" }],
            telemetry := [{ flight_id := 1, point := { timestamp_ms := 0 } }] } ∧
    update_flight_name
        { flights := [{ id := 1, file_name := "a.txt" }],
          telemetry := [{ flight_id := 1, point := { timestamp_ms := 0 } }] }
        2 "renamed" =
      .ok { flights := [{ id := 1, file_name := "a.txt" }],
            telemetry := [{ flight_id := 1, point := { timestamp_ms := 0 } }] } :=
  c10_missing_id_silent_noop _ 2 "renamed" (by decide) (by decide)

/-- Claim C9: when the column order differs from the canonical one, the
column-order repair rebuilds the telemetry relation with the composite
index but without the PRIMARY KEY constraint, so the rebuilt store accepts
a row whose (flight_id, timestamp_ms) key already exists: after the repair
only the in-memory intra-batch dedup skips duplicates. -/
theorem c9_rebuild_drops_primary_key (s : DBState)
    (h : ¬ s.telemetryCols = expectedTelemetryColumns) :
    (ensure_telemetry_column_order s).telemetryCols =
      expectedTelemetryColumns ∧
    (ensure_telemetry_column_order s).telemetryHasIndex = true ∧
    (ensure_telemetry_column_order s).telemetryHasPK = false ∧
    (ensure_telemetry_column_order s).telemetry = s.telemetry ∧
    (∀ (fid : Int) (p : TelemetryPoint),
      bulk_insert_telemetry (ensure_telemetry_column_order s) fid [p] =
        .ok ({ ensure_telemetry_column_order s with
                telemetry := s.telemetry ++ [{ flight_id := fid, point := p }] },
          1)) ∧
    (∀ (fid : Int) (p : TelemetryPoint),
      bulk_insert_telemetry (ensure_telemetry_column_order s) fid [p, p] =
        .ok ({ ensure_telemetry_column_order s with
                telemetry := s.telemetry ++ [{ flight_id := fid, point := p }] },
          1)) := by
  have hs : ensure_telemetry_column_order s =
      { s with telemetryCols := expectedTelemetryColumns,
               telemetryHasPK := false, telemetryHasIndex := true } := by
    simp only [ensure_telemetry_column_order, if_neg h]
  refine ⟨by rw [hs], by rw [hs], by rw [hs], by rw [hs], ?_, ?_⟩
  · intro fid p
    rw [hs]
    simp [bulk_insert_telemetry, bulkStep, flushConflict]
  · intro fid p
    rw [hs]
    simp [bulk_insert_telemetry, bulkStep, flushConflict]

/-- Witness for C9 at a store whose telemetry columns lack the trailing
link-quality columns (a pre-migration layout), holding one stored row whose
key is then re-inserted without rejection. -/
theorem c9_witness :
    (ensure_telemetry_column_order
        { telemetry := [{ flight_id := 1, point := { timestamp_ms := 7 } }],
          telemetryCols := ["flight_id", "timestamp_ms"] }).telemetryHasPK =
      false ∧
    bulk_insert_telemetry
        (ensure_telemetry_column_order
          { telemetry := [{ flight_id := 1, point := { timestamp_ms := 7 } }],
            telemetryCols := ["flight_id", "timestamp_ms"] })
        1 [{ timestamp_ms := 7 }] =
      .ok ({ ensure_telemetry_column_order
              { telemetry := [{ flight_id := 1, point := { timestamp_ms := 7 } }],
                telemetryCols := ["flight_id", "timestamp_ms"] } with
              telemetry := [{ flight_id := 1, point := { timestamp_ms := 7 } },
                            { flight_id := 1, point := { timestamp_ms := 7 } }] },
        1) := by
  have h := c9_rebuild_drops_primary_key
    { telemetry := [{ flight_id := 1, point := { timestamp_ms := 7 } }],
      telemetryCols := ["flight_id", "timestamp_ms"] } (by decide)
  exact ⟨h.2.2.1, h.2.2.2.2.1 1 { timestamp_ms := 7 }⟩

/-- Claim C8 counterexample: a backup archive that fails to extract (the
`archive.unpack` error path) propagates its error through the question-mark
operator before the cleanup code runs, so the scratch extraction directory
is NOT removed on this failure path, contradicting the claim that it is
removed on every failure path. -/
theorem c8_counterexample :
    (import_backup ({} : DBState) none).result =
      .error (.ioError extractFailMsg) ∧
    (import_backup ({} : DBState) none).scratchRemoved = false :=
  ⟨rfl, rfl⟩

/-- Claim C8 (amended): a backup archive without the flights intermediate
file makes `import_backup` fail with the fatal invalid-backup error before
any mutation of the flights, telemetry or keychain relations, and the
scratch directory is removed on the success path and on this
invalid-backup path (but not on every failure path). -/
theorem c8_invalid_backup_aborts (s : DBState) (a : ArchiveContent)
    (h : a.flightsFile = none) :
    import_backup s (some a) =
      { state := s, result := .error (.ioError invalidBackupMsg),
        scratchRemoved := true } ∧
    (∀ b : ArchiveContent, (import_backup s (some b)).scratchRemoved = true) := by
  constructor
  · simp [import_backup, h]
  · intro b
    rcases hb : b.flightsFile with _ | fl <;> simp [import_backup, hb]

/-- Witness for C8 at a store holding one flight and an archive that holds
only a telemetry file. -/
theorem c8_witness :
    import_backup { flights := [{ id := 5, file_name := "f.txt" }] }
        (some { telemetryFile := some [] }) =
      { state := { flights := [{ id := 5, file_name := "f.txt" }] },
        result := .error (.ioError invalidBackupMsg),
        scratchRemoved := true } ∧
    (∀ b : ArchiveContent,
      (import_backup { flights := [{ id := 5, file_name := "f.txt" }] }
          (some b)).scratchRemoved = true) :=
  c8_invalid_backup_aborts { flights := [{ id := 5, file_name := "f.txt" }] }
    { telemetryFile := some [] } rfl

/-- Claim C7: exporting a backup and importing it on the otherwise-untouched
store reproduces the flight and telemetry relations exactly (every existing
row collides with its own incoming copy, so merge-with-overwrite deletes
all of them and reinserts the exported rows), and the restore of each
relation is delete-colliding-rows-then-insert-incoming. -/
theorem c7_export_import_roundtrip (s : DBState) :
    (import_backup s (some (export_backup s))).state.flights = s.flights ∧
    (import_backup s (some (export_backup s))).state.telemetry = s.telemetry ∧
    (import_backup s (some (export_backup s))).result =
      .ok (restoreMsg s.flights.length) ∧
    (∀ cur incoming : List FlightRow,
      restoreFlights cur incoming =
        cur.filter (fun r => ¬ flightRestoreHit incoming r = true) ++ incoming) ∧
    (∀ cur incoming : List TelemetryRow,
      restoreTelemetry cur incoming =
        cur.filter (fun r => ¬ r.flight_id ∈ incoming.map TelemetryRow.flight_id)
          ++ incoming) := by
  have hf : restoreFlights s.flights s.flights = s.flights := by
    simp only [restoreFlights]
    simp
    intro r hr
    have h1 : r.id ∈ s.flights.map FlightRow.id := List.mem_map_of_mem _ hr
    simp [flightRestoreHit, h1]
  have htel : restoreTelemetry s.telemetry s.telemetry = s.telemetry := by
    simp only [restoreTelemetry]
    simp
    intro a ha
    exact ⟨a, ha, rfl⟩
  refine ⟨?_, ?_, ?_, fun cur incoming => rfl, fun cur incoming => rfl⟩
  · simp [import_backup, export_backup, hf, htel]
  · simp [import_backup, export_backup, hf, htel]
  · simp [import_backup, export_backup]

/-- Claim C5: inserting a second flight whose metadata carries an already
stored content hash fails with the unique-constraint violation and creates
no second row (the error leaves the store unchanged, and exactly one row
with that hash exists after the pair of calls); hash uniqueness across the
stored flights is preserved by a successful insert. -/
theorem c5_duplicate_hash_insert_fails (now1 now2 : Option String)
    (s : DBState) (m1 m2 : FlightMetadata) (h : String)
    (hm1 : m1.file_hash = some h) (hm2 : m2.file_hash = some h)
    (hid : ∀ r ∈ s.flights, ¬ r.id = m1.id)
    (hh : ∀ r ∈ s.flights, ¬ r.file_hash = some h) :
    insert_flight now1 s m1 =
      .ok ({ s with flights := s.flights ++ [rowOfMetadata now1 m1] }, m1.id) ∧
    insert_flight now2
        { s with flights := s.flights ++ [rowOfMetadata now1 m1] } m2 =
      .error (.duckDb uniqueViolationMsg) ∧
    ((s.flights ++ [rowOfMetadata now1 m1]).filter
        (fun r => r.file_hash = some h)).length = 1 ∧
    ((s.flights.filterMap FlightRow.file_hash).Nodup →
      ((s.flights ++ [rowOfMetadata now1 m1]).filterMap
          FlightRow.file_hash).Nodup) := by
  have hrow1 : (rowOfMetadata now1 m1).file_hash = some h := by
    simp [rowOfMetadata, hm1]
  have hrow1id : (rowOfMetadata now1 m1).id = m1.id := rfl
  have hc1 : flightInsertConflict s.flights (rowOfMetadata now1 m1) = false := by
    simp only [flightInsertConflict, List.any_eq_false]
    intro r hr
    simp only [decide_eq_true_eq, not_or]
    refine ⟨by simpa [hrow1id] using hid r hr, ?_⟩
    rintro ⟨-, hrh⟩
    exact hh r hr (by rw [hrh, hrow1])
  have hc2 : flightInsertConflict (s.flights ++ [rowOfMetadata now1 m1])
      (rowOfMetadata now2 m2) = false → False := by
    intro hfalse
    simp only [flightInsertConflict, List.any_eq_false] at hfalse
    have hmem : rowOfMetadata now1 m1 ∈ s.flights ++ [rowOfMetadata now1 m1] :=
      List.mem_append_right _ (List.mem_singleton_self _)
    have := hfalse _ hmem
    simp only [decide_eq_true_eq, not_or] at this
    refine this.2 ⟨?_, ?_⟩
    · simp [rowOfMetadata, hm2]
    · show (rowOfMetadata now1 m1).file_hash = (rowOfMetadata now2 m2).file_hash
      rw [hrow1]
      simp [rowOfMetadata, hm2]
  refine ⟨?_, ?_, ?_, ?_⟩
  · simp [insert_flight, hc1]
  · rcases hcase : flightInsertConflict (s.flights ++ [rowOfMetadata now1 m1])
        (rowOfMetadata now2 m2) with _ | _
    · exact absurd hcase hc2
    · simp [insert_flight, hcase]
  · rw [List.filter_append]
    have h0 : s.flights.filter (fun r => r.file_hash = some h) = [] := by
      rw [List.filter_eq_nil_iff]
      intro r hr
      simpa using hh r hr
    simp [h0, hrow1]
  · intro hnd
    rw [List.filterMap_append]
    have hsing : List.filterMap FlightRow.file_hash [rowOfMetadata now1 m1] =
        [h] := by
      simp [List.filterMap_cons, hrow1]
    rw [hsing, List.nodup_append]
    refine ⟨hnd, List.nodup_singleton _, ?_⟩
    intro x hx hx2
    rw [List.mem_singleton] at hx2
    subst hx2
    rcases List.mem_filterMap.mp hx with ⟨r, hr, hrh⟩
    exact hh r hr hrh

/-- Witness for C5: two metadata values sharing the hash "abc" inserted
into the empty store. -/
theorem c5_witness :
    insert_flight none ({} : DBState)
        { id := 1, file_name := "a.txt", file_hash := some "abc" } =
      .ok ({ ({} : DBState) with
              flights := [] ++ [rowOfMetadata none
                { id := 1, file_name := "a.txt", file_hash := some "abc" }] },
        1) ∧
    insert_flight none
        { ({} : DBState) with
          flights := [] ++ [rowOfMetadata none
            { id := 1, file_name := "a.txt", file_hash := some "abc" }] }
        { id := 2, file_name := "b.txt", file_hash := some "abc" } =
      .error (.duckDb uniqueViolationMsg) ∧
    ((([] : List FlightRow) ++ [rowOfMetadata none
        { id := 1, file_name := "a.txt", file_hash := some "abc" }]).filter
        (fun r => r.file_hash = some "abc")).length = 1 ∧
    ((([] : List FlightRow).filterMap FlightRow.file_hash).Nodup →
      ((([] : List FlightRow) ++ [rowOfMetadata none
          { id := 1, file_name := "a.txt", file_hash := some "abc" }]).filterMap
          FlightRow.file_hash).Nodup) :=
  c5_duplicate_hash_insert_fails none none ({} : DBState)
    { id := 1, file_name := "a.txt", file_hash := some "abc" }
    { id := 2, file_name := "b.txt", file_hash := some "abc" }
    "abc" rfl rfl (by decide) (by decide)

/-- Claim C2: when the stored point count of a flight is at most the
requested `max_points` (default 5000 when omitted), `get_flight_telemetry`
serves the raw path: exactly the N stored rows, projected verbatim and
ordered ascending by timestamp.  The point count may come from the caller
(`known_point_count`) or from the COUNT scan. -/
theorem c2_small_flight_served_raw (s : DBState) (fid : Int)
    (mp : Option Nat) (kpc : Option Int)
    (hne : ¬ (flightRows s fid).length = 0)
    (hk : kpc = none ∨ kpc = some ((flightRows s fid).length : Int))
    (hM : ((flightRows s fid).length : Int) ≤ ((mp.getD 5000 : Nat) : Int)) :
    get_flight_telemetry s fid mp kpc = .ok (query_raw_telemetry s fid) ∧
    (query_raw_telemetry s fid).length = (flightRows s fid).length ∧
    (query_raw_telemetry s fid).Perm ((flightRows s fid).map toRecord) ∧
    (query_raw_telemetry s fid).Sorted
      (fun a b => a.timestamp_ms ≤ b.timestamp_ms) := by
  have hc0 : ¬ ((flightRows s fid).length : Int) = 0 := by exact_mod_cast hne
  have hpos : (0 : Int) < ((flightRows s fid).length : Int) := by
    exact_mod_cast Nat.pos_of_ne_zero hne
  have hlen := (List.perm_insertionSort rowTsLe (flightRows s fid)).length_eq
  refine ⟨?_, ?_, ?_, ?_⟩
  · rcases hk with hk | hk <;> subst hk
    · simp [get_flight_telemetry, hc0, hM]
    · simp [get_flight_telemetry, hpos, hM]
  · simp [query_raw_telemetry, hlen]
  · exact (List.perm_insertionSort rowTsLe (flightRows s fid)).map toRecord
  · have hs := List.sorted_insertionSort rowTsLe (flightRows s fid)
    simp only [query_raw_telemetry, List.Sorted, List.pairwise_map]
    exact hs

/-- Witness for C2 at a store with two telemetry rows for flight 1 (stored
out of timestamp order) and the default point budget. -/
theorem c2_witness :
    get_flight_telemetry
        { telemetry := [{ flight_id := 1, point := { timestamp_ms := 5 } },
                        { flight_id := 1, point := { timestamp_ms := 3 } }] }
        1 none none =
      .ok (query_raw_telemetry
        { telemetry := [{ flight_id := 1, point := { timestamp_ms := 5 } },
                        { flight_id := 1, point := { timestamp_ms := 3 } }] }
        1) ∧
    (query_raw_telemetry
        { telemetry := [{ flight_id := 1, point := { timestamp_ms := 5 } },
                        { flight_id := 1, point := { timestamp_ms := 3 } }] }
        1).length =
      (flightRows
        { telemetry := [{ flight_id := 1, point := { timestamp_ms := 5 } },
                        { flight_id := 1, point := { timestamp_ms := 3 } }] }
        1).length ∧
    (query_raw_telemetry
        { telemetry := [{ flight_id := 1, point := { timestamp_ms := 5 } },
                        { flight_id := 1, point := { timestamp_ms := 3 } }] }
        1).Perm
      ((flightRows
        { telemetry := [{ flight_id := 1, point := { timestamp_ms := 5 } },
                        { flight_id := 1, point := { timestamp_ms := 3 } }] }
        1).map toRecord) ∧
    (query_raw_telemetry
        { telemetry := [{ flight_id := 1, point := { timestamp_ms := 5 } },
                        { flight_id := 1, point := { timestamp_ms := 3 } }] }
        1).Sorted (fun a b => a.timestamp_ms ≤ b.timestamp_ms) :=
  c2_small_flight_served_raw
    { telemetry := [{ flight_id := 1, point := { timestamp_ms := 5 } },
                    { flight_id := 1, point := { timestamp_ms := 3 } }] }
    1 none none (by decide) (Or.inl rfl) (by decide)

lemma flightTimestamps_append (a b : List TelemetryRow) (fid : Int) :
    flightTimestamps (a ++ b) fid =
      flightTimestamps a fid ++ flightTimestamps b fid := by
  simp [flightTimestamps, List.filter_append]

lemma flightTimestamps_of_forall {l : List TelemetryRow} {fid : Int}
    (h : ∀ r ∈ l, r.flight_id = fid) :
    flightTimestamps l fid = l.map (fun r => r.point.timestamp_ms) := by
  unfold flightTimestamps
  rw [List.filter_eq_self.mpr (fun a ha => by simpa using h a ha)]

lemma mem_flightTimestamps_iff {tel : List TelemetryRow} {fid t : Int} :
    t ∈ flightTimestamps tel fid ↔
      ∃ r ∈ tel, r.flight_id = fid ∧ r.point.timestamp_ms = t := by
  simp only [flightTimestamps, List.mem_map, List.mem_filter,
    decide_eq_true_eq]
  tauto

lemma bulkFold_spec (fid : Int) (pts : List TelemetryPoint) :
    ∀ acc : BulkAcc,
      (acc.appended.map (fun r => r.point.timestamp_ms)).Nodup →
      (∀ r ∈ acc.appended, r.point.timestamp_ms ∈ acc.seen) →
      ∃ newRows : List TelemetryRow,
        (pts.foldl (bulkStep fid) acc).appended = acc.appended ++ newRows ∧
        (∀ r ∈ newRows, r.flight_id = fid ∧
          r.point.timestamp_ms ∈ pts.map TelemetryPoint.timestamp_ms ∧
          ¬ r.point.timestamp_ms ∈ acc.seen) ∧
        (pts.foldl (bulkStep fid) acc).inserted =
          acc.inserted + newRows.length ∧
        ((pts.foldl (bulkStep fid) acc).appended.map
          (fun r => r.point.timestamp_ms)).Nodup ∧
        (∀ r ∈ (pts.foldl (bulkStep fid) acc).appended,
          r.point.timestamp_ms ∈ (pts.foldl (bulkStep fid) acc).seen) ∧
        ((pts.foldl (bulkStep fid) acc).appended.map
          (fun r => r.point.timestamp_ms)).toFinset =
          (acc.appended.map (fun r => r.point.timestamp_ms)).toFinset ∪
            ((pts.map TelemetryPoint.timestamp_ms).toFinset \
              acc.seen.toFinset) := by
  induction pts with
  | nil =>
    intro acc h1 h2
    exact ⟨[], by simp, by simp, by simp, h1, h2, by simp⟩
  | cons p rest ih =>
    intro acc h1 h2
    rw [List.foldl_cons]
    by_cases hseen : p.timestamp_ms ∈ acc.seen
    · have hstep : bulkStep fid acc p =
          { acc with skipped := acc.skipped + 1 } := by
        simp [bulkStep, hseen]
      rw [hstep]
      obtain ⟨nr, ha, hb, hc, hd, he, hg⟩ :=
        ih { acc with skipped := acc.skipped + 1 } h1 h2
      refine ⟨nr, ha, ?_, hc, hd, he, ?_⟩
      · intro r hr
        obtain ⟨hfid, hmem, hns⟩ := hb r hr
        exact ⟨hfid, List.mem_cons_of_mem _ hmem, hns⟩
      · rw [hg]
        ext x
        by_cases hx : x = p.timestamp_ms
        · simp [hx, hseen]
        · simp [hx]
    · have hstep : bulkStep fid acc p =
          { appended := acc.appended ++ [{ flight_id := fid, point := p }],
            inserted := acc.inserted + 1, skipped := acc.skipped,
            seen := p.timestamp_ms :: acc.seen } := by
        simp [bulkStep, hseen]
      rw [hstep]
      have h1a : ((acc.appended ++
          [({ flight_id := fid, point := p } : TelemetryRow)]).map
          (fun r => r.point.timestamp_ms)).Nodup := by
        rw [List.map_append, List.nodup_append]
        refine ⟨h1, by simp, ?_⟩
        intro x hx hx2
        simp at hx2
        subst hx2
        rcases List.mem_map.mp hx with ⟨r, hr, hts⟩
        exact hseen (hts ▸ h2 r hr)
      have h2a : ∀ r ∈ acc.appended ++
          [({ flight_id := fid, point := p } : TelemetryRow)],
          r.point.timestamp_ms ∈ p.timestamp_ms :: acc.seen := by
        intro r hr
        rcases List.mem_append.mp hr with hr | hr
        · exact List.mem_cons_of_mem _ (h2 r hr)
        · rw [List.mem_singleton] at hr
          subst hr
          exact List.mem_cons_self _ _
      obtain ⟨nr, ha, hb, hc, hd, he, hg⟩ :=
        ih { appended := acc.appended ++
              [({ flight_id := fid, point := p } : TelemetryRow)],
             inserted := acc.inserted + 1, skipped := acc.skipped,
             seen := p.timestamp_ms :: acc.seen } h1a h2a
      refine ⟨{ flight_id := fid, point := p } :: nr, ?_, ?_, ?_, hd, he, ?_⟩
      · rw [ha]
        simp [List.append_assoc]
      · intro r hr
        rcases List.mem_cons.mp hr with rfl | hrnr
        · exact ⟨rfl, List.mem_cons_self _ _, hseen⟩
        · obtain ⟨hfid, hmem, hns⟩ := hb r hrnr
          refine ⟨hfid, List.mem_cons_of_mem _ hmem, ?_⟩
          intro hmem2
          exact hns (List.mem_cons_of_mem _ hmem2)
      · rw [hc]
        simp only [List.length_cons]
        omega
      · rw [hg]
        ext x
        by_cases hx : x = p.timestamp_ms
        · simp [hx, hseen]
        · simp [hx]

/-- Claim C3 counterexample: the batch [5 ms, 7 ms] sent for a flight that
already stores timestamp 5 makes `appender.flush()` reject the appended
chunk; the error propagates to the caller, so no count of persisted rows is
returned and the store still holds 1 row although 2 distinct timestamps
were supplied for the flight across calls — refuting the claim for batches
that overlap the stored timestamps. -/
theorem c3_counterexample :
    bulk_insert_telemetry
        { telemetry := [{ flight_id := 1, point := { timestamp_ms := 5 } }] }
        1 [{ timestamp_ms := 5 }, { timestamp_ms := 7 }] =
      .error (.duckDb appenderFlushErrMsg) ∧
    (bulk_insert_telemetry
        { telemetry := [{ flight_id := 1, point := { timestamp_ms := 5 } }] }
        1 [{ timestamp_ms := 5 }, { timestamp_ms := 7 }]).toOption = none ∧
    (([{ timestamp_ms := 5 }, { timestamp_ms := 7 }] :
        List TelemetryPoint).map TelemetryPoint.timestamp_ms).dedup.length =
      2 ∧
    (flightTimestamps
        ({ telemetry :=
            [{ flight_id := 1, point := { timestamp_ms := 5 } }] } :
          DBState).telemetry 1).length = 1 :=
  ⟨by decide, by decide, by decide, by decide⟩

/-- Claim C3 (amended): for every batch none of whose timestamps is already
stored for the flight, every point whose timestamp duplicates an earlier
timestamp in the same batch is skipped (not inserted and not overwriting),
the flush succeeds, the stored per-flight timestamps stay duplicate-free
with their set equal to the stored set united with the batch set, the
stored row count grows by exactly the returned count of persisted rows,
and over a flight with no prior telemetry it equals the number of distinct
batch timestamps.  (A batch carrying an already stored timestamp instead
fails at the appender flush — see C4.) -/
theorem c3_bulk_insert_dedup (s : DBState) (fid : Int)
    (pts : List TelemetryPoint)
    (hPK : s.telemetryHasPK = true)
    (hnd : (flightTimestamps s.telemetry fid).Nodup)
    (hdisj : ∀ t ∈ pts.map TelemetryPoint.timestamp_ms,
      ¬ t ∈ flightTimestamps s.telemetry fid) :
    ∃ s2 n, bulk_insert_telemetry s fid pts = .ok (s2, n) ∧
      (flightTimestamps s2.telemetry fid).Nodup ∧
      (flightTimestamps s2.telemetry fid).toFinset =
        (flightTimestamps s.telemetry fid).toFinset ∪
          (pts.map TelemetryPoint.timestamp_ms).toFinset ∧
      (flightTimestamps s2.telemetry fid).length =
        (flightTimestamps s.telemetry fid).length + n ∧
      (∀ r ∈ s.telemetry, r ∈ s2.telemetry) ∧
      (flightTimestamps s.telemetry fid = [] →
        (flightTimestamps s2.telemetry fid).length =
          (pts.map TelemetryPoint.timestamp_ms).dedup.length) := by
  obtain ⟨nr, ha, hb, hc, hd, he, hg⟩ :=
    bulkFold_spec fid pts (⟨[], 0, 0, []⟩ : BulkAcc) (by simp) (by simp)
  have hall : ∀ r ∈ (pts.foldl (bulkStep fid)
      (⟨[], 0, 0, []⟩ : BulkAcc)).appended,
      r.flight_id = fid ∧
      r.point.timestamp_ms ∈ pts.map TelemetryPoint.timestamp_ms := by
    intro r hr
    rw [ha] at hr
    obtain ⟨hfid, hmem, -⟩ := hb r (by simpa using hr)
    exact ⟨hfid, hmem⟩
  have hflush : flushConflict s.telemetryHasPK s.telemetry
      (pts.foldl (bulkStep fid) (⟨[], 0, 0, []⟩ : BulkAcc)).appended =
      false := by
    rcases hfc : flushConflict s.telemetryHasPK s.telemetry
        (pts.foldl (bulkStep fid) (⟨[], 0, 0, []⟩ : BulkAcc)).appended
      with _ | _
    · rfl
    · exfalso
      simp only [flushConflict, hPK, Bool.true_and, List.any_eq_true,
        decide_eq_true_eq] at hfc
      obtain ⟨r, hr, q, hq, hfid, hts⟩ := hfc
      obtain ⟨hrfid, hrmem⟩ := hall r hr
      exact hdisj _ hrmem (mem_flightTimestamps_iff.mpr
        ⟨q, hq, by rw [hfid, hrfid], hts⟩)
  have hts2 : flightTimestamps (s.telemetry ++
      (pts.foldl (bulkStep fid) (⟨[], 0, 0, []⟩ : BulkAcc)).appended) fid =
      flightTimestamps s.telemetry fid ++
        ((pts.foldl (bulkStep fid)
          (⟨[], 0, 0, []⟩ : BulkAcc)).appended.map
          (fun r => r.point.timestamp_ms)) := by
    rw [flightTimestamps_append,
      flightTimestamps_of_forall (fun r hr => (hall r hr).1)]
  have happset : ((pts.foldl (bulkStep fid)
      (⟨[], 0, 0, []⟩ : BulkAcc)).appended.map
      (fun r => r.point.timestamp_ms)).toFinset =
      (pts.map TelemetryPoint.timestamp_ms).toFinset := by
    rw [hg]
    simp
  refine ⟨{ s with telemetry := s.telemetry ++
      (pts.foldl (bulkStep fid) (⟨[], 0, 0, []⟩ : BulkAcc)).appended },
    (pts.foldl (bulkStep fid) (⟨[], 0, 0, []⟩ : BulkAcc)).inserted,
    ?_, ?_, ?_, ?_, ?_, ?_⟩
  · simp [bulk_insert_telemetry, hflush]
  · show (flightTimestamps (s.telemetry ++ _) fid).Nodup
    rw [hts2, List.nodup_append]
    refine ⟨hnd, hd, ?_⟩
    intro x hx hx2
    rcases List.mem_map.mp hx2 with ⟨r, hr, hts⟩
    exact hdisj x (hts ▸ (hall r hr).2) hx
  · show (flightTimestamps (s.telemetry ++ _) fid).toFinset = _
    rw [hts2, List.toFinset_append, happset]
  · show (flightTimestamps (s.telemetry ++ _) fid).length = _
    rw [hts2, List.length_append, List.length_map]
    have hlen : (pts.foldl (bulkStep fid)
        (⟨[], 0, 0, []⟩ : BulkAcc)).appended.length = nr.length := by
      rw [ha]
      simp
    rw [hlen, hc]
    simp
  · intro r hr
    exact List.mem_append_left _ hr
  · intro hemp
    show (flightTimestamps (s.telemetry ++ _) fid).length = _
    rw [hts2, hemp, List.nil_append]
    rw [← List.toFinset_card_of_nodup hd, happset, List.card_toFinset]

/-- Witness for the amended C3: a batch with a repeated timestamp inserted
for a fresh flight; two rows persist and the count is 2. -/
theorem c3_witness :
    ∃ s2 n, bulk_insert_telemetry ({} : DBState) 1
        [{ timestamp_ms := 5 }, { timestamp_ms := 5 }, { timestamp_ms := 6 }] =
      .ok (s2, n) ∧
      (flightTimestamps s2.telemetry 1).Nodup ∧
      (flightTimestamps s2.telemetry 1).toFinset =
        (flightTimestamps ({} : DBState).telemetry 1).toFinset ∪
          (([{ timestamp_ms := 5 }, { timestamp_ms := 5 },
              { timestamp_ms := 6 }] : List TelemetryPoint).map
            TelemetryPoint.timestamp_ms).toFinset ∧
      (flightTimestamps s2.telemetry 1).length =
        (flightTimestamps ({} : DBState).telemetry 1).length + n ∧
      (∀ r ∈ ({} : DBState).telemetry, r ∈ s2.telemetry) ∧
      (flightTimestamps ({} : DBState).telemetry 1 = [] →
        (flightTimestamps s2.telemetry 1).length =
          (([{ timestamp_ms := 5 }, { timestamp_ms := 5 },
              { timestamp_ms := 6 }] : List TelemetryPoint).map
            TelemetryPoint.timestamp_ms).dedup.length) :=
  c3_bulk_insert_dedup ({} : DBState) 1
    [{ timestamp_ms := 5 }, { timestamp_ms := 5 }, { timestamp_ms := 6 }]
    rfl (by decide) (by decide)

/-- Claim C4 is false of the program (code bug): the DuckDB appender checks
the composite primary key only when the buffered rows are flushed, so the
rejection of a cross-batch duplicate is raised by `appender.flush()`
(database.rs line 442) and propagated to the caller with the question-mark
operator; the catch inside the loop (lines 428-436) never sees it.
Evaluated at the failing input — a store already holding (flight 1,
timestamp 5) and a batch re-sending timestamp 5 — the call surfaces the
constraint error instead of silently skipping the point and succeeding. -/
theorem c4_flush_error_surfaces :
    bulk_insert_telemetry
        { telemetry := [{ flight_id := 1, point := { timestamp_ms := 5 } }] }
        1 [{ timestamp_ms := 5 }] =
      .error (.duckDb appenderFlushErrMsg) ∧
    (bulk_insert_telemetry
        { telemetry := [{ flight_id := 1, point := { timestamp_ms := 5 } }] }
        1 [{ timestamp_ms := 5 }]).toOption = none :=
  ⟨by decide, by decide⟩

lemma bucketKey_eq_self (t : Int) {B : Int} (hB : ¬ (B : ℚ) = 0) :
    bucketKey B t = (t : ℚ) :=
  div_mul_cancel₀ _ hB

/-- Store used to exhibit the downsampling code bug: three rows for
flight 1 at 0 ms, 1 ms and 2 ms. -/
def c1State : DBState :=
  { telemetry := [{ flight_id := 1, point := { timestamp_ms := 0 } },
                  { flight_id := 1, point := { timestamp_ms := 1 } },
                  { flight_id := 1, point := { timestamp_ms := 2 } }] }

/-- Claim C1 is right about the intended policy and the code is wrong
(code bug): DuckDB's `/` on integers is float division (`//` is the
integer-division operator), so the bucket expression is the identity on
timestamps and the query never buckets.  At a flight with three points at
0, 1 and 2 ms and max_points = 2, the bucket size is max(1000, 2/2) =
1000 and the spec's floor bucketing would merge all three samples into the
single bucket 0, within the claimed bound ceil(2/1000) = 1; the query
instead returns 3 unmerged records, exceeding both the claimed bound and
max_points. -/
theorem c1_float_division_no_bucketing :
    (∀ t : Int, bucketKey 1000 t = (t : ℚ)) ∧
    flightBucketSize (flightRows c1State 1) 2 = 1000 ∧
    get_flight_telemetry c1State 1 (some 2) (some 3) =
      .ok (downsampleRows (flightRows c1State 1) 2) ∧
    (downsampleRows (flightRows c1State 1) 2).length = 3 ∧
    ((2 : Int) + 1000 - 1) / 1000 = 1 ∧
    ¬ (downsampleRows (flightRows c1State 1) 2).length ≤ 2 ∧
    (((flightRows c1State 1).map (fun r =>
        specBucketKey 1000 r.point.timestamp_ms)).dedup).length = 1 := by
  have hB : flightBucketSize (flightRows c1State 1) 2 = 1000 := by decide
  have hrows : flightRows c1State 1 =
      [{ flight_id := 1, point := { timestamp_ms := 0 } },
       { flight_id := 1, point := { timestamp_ms := 1 } },
       { flight_id := 1, point := { timestamp_ms := 2 } }] := by decide
  have hkeymap : (flightRows c1State 1).map (fun r =>
      bucketKey (flightBucketSize (flightRows c1State 1) 2)
        r.point.timestamp_ms) = [(0 : ℚ), 1, 2] := by
    simp only [hB]
    simp only [hrows, List.map_cons, List.map_nil]
    norm_num [bucketKey]
  have hlen3 : (downsampleRows (flightRows c1State 1) 2).length = 3 := by
    simp only [downsampleRows, List.length_map]
    rw [(List.perm_insertionSort (fun a b : ℚ => a ≤ b) _).length_eq]
    rw [hkeymap, List.dedup_eq_self.mpr (by norm_num)]
    rfl
  refine ⟨fun t => bucketKey_eq_self t (by norm_num), hB, rfl, hlen3,
    by decide, ?_, by decide⟩
  intro hcon
  rw [hlen3] at hcon
  exact absurd hcon (by norm_num)

lemma haversineDist_nonneg (a b c d : ℚ) : 0 ≤ haversineDist a b c d := by
  unfold haversineDist
  exact mul_nonneg (by norm_num)
    (Real.arcsin_nonneg.mpr (Real.sqrt_nonneg _))

lemma caseDistVal_nonneg (f : FlightRow) (t : TelemetryRow) :
    0 ≤ caseDistVal f t := by
  unfold caseDistVal
  split
  · split
    · exact le_refl 0
    · exact haversineDist_nonneg _ _ _ _
  · exact le_refl 0

lemma sqlMaxD_cons_getD (x : ℝ) (xs : List ℝ) (hx : 0 ≤ x) :
    (sqlMaxD (x :: xs)).getD 0 = max x ((sqlMaxD xs).getD 0) := by
  cases xs with
  | nil => simp [sqlMaxD, max_eq_left hx]
  | cons y ys => simp [sqlMaxD]

lemma sqlMaxD_getD_nonneg (l : List ℝ) (h : ∀ x ∈ l, 0 ≤ x) :
    0 ≤ (sqlMaxD l).getD 0 := by
  induction l with
  | nil => simp [sqlMaxD]
  | cons x xs ih =>
    have hx := h x (List.mem_cons_self x xs)
    rw [sqlMaxD_cons_getD x xs hx]
    exact le_trans hx (le_max_left _ _)

lemma sqlMaxD_map_filterMap_eq {α : Type} (cv : α → ℝ) (q : α → Option ℝ)
    (hnn : ∀ t, 0 ≤ cv t)
    (hqn : ∀ t, q t = none → cv t = 0)
    (hqs : ∀ t v, q t = some v → cv t = v) (l : List α) :
    (sqlMaxD (l.map cv)).getD 0 = (sqlMaxD (l.filterMap q)).getD 0 := by
  induction l with
  | nil => rfl
  | cons t rest ih =>
    have htail1 : 0 ≤ (sqlMaxD (rest.map cv)).getD 0 :=
      sqlMaxD_getD_nonneg _ (fun z hz => by
        rcases List.mem_map.mp hz with ⟨u, _, rfl⟩
        exact hnn u)
    have htail2 : 0 ≤ (sqlMaxD (rest.filterMap q)).getD 0 :=
      sqlMaxD_getD_nonneg _ (fun z hz => by
        rcases List.mem_filterMap.mp hz with ⟨u, _, hq⟩
        rw [← hqs u z hq]
        exact hnn u)
    rw [List.map_cons, List.filterMap_cons]
    rcases hq : q t with _ | v
    · rw [hqn t hq, sqlMaxD_cons_getD 0 _ le_rfl, max_eq_right htail1, ih]
    · have hv : 0 ≤ v := by
        rw [← hqs t v hq]
        exact hnn t
      rw [hqs t v hq, sqlMaxD_cons_getD v _ hv, sqlMaxD_cons_getD v _ hv, ih]

lemma flightMaxDistance_eq_spec (s : DBState) (f : FlightRow) (hla hlo : ℚ)
    (h1 : f.home_lat = some hla) (h2 : f.home_lon = some hlo) :
    flightMaxDistance s f = specMaxDistance s f.id hla hlo := by
  unfold flightMaxDistance specMaxDistance specQualifyingDistances
  refine sqlMaxD_map_filterMap_eq (caseDistVal f) _ (caseDistVal_nonneg f)
    ?_ ?_ (flightRows s f.id)
  · intro t hq
    rcases hx : t.point.latitude with _ | x
    · simp [caseDistVal, h1, h2, hx]
    · rcases hy : t.point.longitude with _ | y
      · simp [caseDistVal, h1, h2, hx, hy]
      · by_cases hdeg : |x| < epsTol ∧ |y| < epsTol
        · simp [caseDistVal, h1, h2, hx, hy, hdeg]
        · rw [hx, hy] at hq
          simp [hdeg] at hq
  · intro t v hq
    rcases hx : t.point.latitude with _ | x
    · rw [hx] at hq
      simp at hq
    · rcases hy : t.point.longitude with _ | y
      · rw [hx, hy] at hq
        simp at hq
      · rw [hx, hy] at hq
        by_cases hdeg : |x| < epsTol ∧ |y| < epsTol
        · simp [hdeg] at hq
        · simp [hdeg] at hq
          rw [← hq]
          simp [caseDistVal, h1, h2, hx, hy, hdeg]

/-- Claim C6: `get_overview_stats` gives every flight with a non-degenerate
non-null home point a per-flight value equal to the greatest haversine
distance from home over its non-degenerate telemetry points (0 when none
qualifies), keeps flights with a degenerate home point out of the
per-flight list so they produce no spurious haversine value, orders the
list descending by distance, and derives the global maximum as the head of
that list (0 when it is empty). -/
theorem c6_overview_max_distance (s : DBState) (f : FlightRow) (hla hlo : ℚ)
    (hmem : f ∈ s.flights) (h1 : f.home_lat = some hla)
    (h2 : f.home_lon = some hlo) :
    (if |hla| < epsTol ∧ |hlo| < epsTol then homeWherePred f = false
     else homeWherePred f = true ∧
       flightMaxDistance s f = specMaxDistance s f.id hla hlo ∧
       topEntryOf s f ∈ (get_overview_stats s).top_distance_flights) ∧
    List.Sorted topGE ((get_overview_stats s).top_distance_flights) ∧
    ((get_overview_stats s).top_distance_flights).Perm
      ((s.flights.filter homeWherePred).map (topEntryOf s)) ∧
    (get_overview_stats s).max_distance_from_home_m =
      (match (get_overview_stats s).top_distance_flights with
       | [] => (0 : ℝ)
       | e :: _ => e.max_distance_from_home_m) := by
  refine ⟨?_, ?_, ?_, ?_⟩
  · by_cases hdeg : |hla| < epsTol ∧ |hlo| < epsTol
    · rw [if_pos hdeg]
      simp [homeWherePred, h1, h2, hdeg]
    · rw [if_neg hdeg]
      refine ⟨by simp [homeWherePred, h1, h2, hdeg],
        flightMaxDistance_eq_spec s f hla hlo h1 h2, ?_⟩
      show topEntryOf s f ∈ top_distance_flights s
      rw [top_distance_flights, List.mem_insertionSort]
      refine List.mem_map_of_mem _ (List.mem_filter.mpr ⟨hmem, ?_⟩)
      simp [homeWherePred, h1, h2, hdeg]
  · exact List.sorted_insertionSort topGE _
  · exact List.perm_insertionSort topGE _
  · rfl

/-- Flight fixture for the C6 witness: home point (37, -122). -/
def c6Flight : FlightRow :=
  { id := 1, file_name := "w.txt", home_lat := some 37,
    home_lon := some (-122) }

/-- Store fixture for the C6 witness: the flight above plus one telemetry
sample at (37.02, -122). -/
def c6State : DBState :=
  { flights := [c6Flight],
    telemetry := [{ flight_id := 1,
                    point := { timestamp_ms := 0,
                               latitude := some (3702 / 100),
                               longitude := some (-122) } }] }

/-- Witness for C6 at the fixture store. -/
theorem c6_witness :
    (if |(37 : ℚ)| < epsTol ∧ |(-122 : ℚ)| < epsTol then
      homeWherePred c6Flight = false
     else homeWherePred c6Flight = true ∧
       flightMaxDistance c6State c6Flight =
         specMaxDistance c6State c6Flight.id 37 (-122) ∧
       topEntryOf c6State c6Flight ∈
         (get_overview_stats c6State).top_distance_flights) ∧
    List.Sorted topGE ((get_overview_stats c6State).top_distance_flights) ∧
    ((get_overview_stats c6State).top_distance_flights).Perm
      ((c6State.flights.filter homeWherePred).map (topEntryOf c6State)) ∧
    (get_overview_stats c6State).max_distance_from_home_m =
      (match (get_overview_stats c6State).top_distance_flights with
       | [] => (0 : ℝ)
       | e :: _ => e.max_distance_from_home_m) :=
  c6_overview_max_distance c6State c6Flight 37 (-122) (by decide) rfl rfl
